import Mathlib

/-!
# Verification of the Confluence search CLI core (`src/commands/search.ts`)

This file gives a shallow embedding of the search-and-render pipeline of the
`hs-cli-confluence-search` repository and proves the specified properties
about it.  The embedded functions are translated directly from
`src/commands/search.ts` (helped by `src/lib/config.ts` and the CLI entry
point): query building, response-status classification, raw-result
normalization, title truncation, OSC 8 hyperlink decoration, and the banner
centering arithmetic.

Modelling conventions:
* JavaScript strings are Lean `String`s; `x || dflt` on strings is
  `jsOrString` (absent / `null` / `""` are falsy).
* Numbers that may be negative are `Int`; `options.limit` is
  `Option Int` where `none` stands for `undefined` or `NaN`
  (both are falsy, so `limit || 10` treats them alike).
* Terminal colouring (`chalk`) emits zero-width SGR sequences; layout
  arithmetic is stated on the visible text, matching the source's use of
  fixed column widths.
* `new Date(w).toISOString()` throwing on an unparsable timestamp is
  modelled by `Except`: normalization of a result list aborts with the
  V8 error message `"Invalid time value"`, which the generic catch
  block reports before exiting with code 1.
-/

/-- JavaScript `a || dflt` for an optional string: `undefined`/`null`
(here `none`) and the empty string are falsy and select the default. -/
def jsOrString (a : Option String) (dflt : String) : String :=
  match a with
  | none => dflt
  | some s => if s = "" then dflt else s

/-- `confluenceUrl.replace(/\/$/, '')`: drop one trailing slash if present. -/
def stripTrailingSlash (s : String) : String :=
  if s.data.getLast? = some '/' then String.mk s.data.dropLast else s

/-- `hyperlink` from `search.ts` lines 18–21: OSC 8 escape with BEL
(`\x07`) terminators: `\x1b]8;;URL\x07TEXT\x1b]8;;\x07`. -/
def hyperlink (text url : String) : String :=
  "\x1b]8;;" ++ url ++ "\x07" ++ text ++ "\x1b]8;;\x07"

/-- `chalk.cyan`: wraps text in the SGR foreground codes 36 / 39. -/
def chalkCyan (s : String) : String :=
  "\x1b[36m" ++ s ++ "\x1b[39m"

/-- Fixed title column width (`const titleWidth = 60`). -/
def titleWidth : Nat := 60

/-- Title truncation from the row loop (lines 228–232): titles longer than
`titleWidth - 4` keep their first `titleWidth - 4 - 3` characters and get a
trailing `"..."`. -/
def truncateTitle (t : String) : String :=
  let maxTitleLen := titleWidth - 4
  if t.length > maxTitleLen then String.mk (t.data.take (maxTitleLen - 3)) ++ "..." else t

/-- The rendered title cell (line 236): truncate first, then hyperlink,
then colour: `chalk.cyan(hyperlink(title, result.url))`. -/
def renderTitleCell (t url : String) : String :=
  chalkCyan (hyperlink (truncateTitle t) url)

/-- `version.by` sub-object of a raw API entry. -/
structure RawBy where
  displayName : Option String
deriving DecidableEq

/-- `version` sub-object of a raw API entry. -/
structure RawVersion where
  when : Option String
  by_ : Option RawBy
deriving DecidableEq

/-- `space` sub-object of a raw API entry. -/
structure RawSpace where
  key : Option String
  name : Option String
deriving DecidableEq

/-- `_links` sub-object of a raw API entry. -/
structure RawLinks where
  webui : Option String
deriving DecidableEq

/-- An entry of the untrusted `results` array of the API response body. -/
structure RawResult where
  id : String
  title : Option String
  space : Option RawSpace
  version : Option RawVersion
  _links : Option RawLinks
deriving DecidableEq

/-- The normalized `SearchResult` record built by the mapper. -/
structure SearchResult where
  id : String
  title : String
  space : String
  spaceKey : String
  url : String
  updatedBy : String
  updatedDate : String
deriving DecidableEq

/-- Days per month, with leap years, used to delimit the timestamps the
date parser accepts. -/
def daysInMonth (y m : Nat) : Nat :=
  if m = 2 then (if y % 4 = 0 ∧ (y % 100 ≠ 0 ∨ y % 400 = 0) then 29 else 28)
  else if m = 4 ∨ m = 6 ∨ m = 9 ∨ m = 11 then 30 else 31

/-- Model of `new Date(s).toISOString().split('T')[0]` on the ISO-8601 UTC
timestamp format `YYYY-MM-DDTHH:MM:SS.mmmZ` that the Confluence API emits:
for a well-formed UTC timestamp the result is its first ten characters
(the calendar date); `none` models the `RangeError` that
`Date.prototype.toISOString` throws on an Invalid Date.  (JavaScript's
`Date` constructor also accepts other formats; this embedding covers the
UTC format, which is the one the claims and the API exercise.) -/
def jsDateToIsoDate (s : String) : Option String :=
  let cs := s.data
  let d := fun i => cs.getD i '?'
  if cs.length = 24 ∧ (d 0).isDigit ∧ (d 1).isDigit ∧ (d 2).isDigit ∧ (d 3).isDigit
      ∧ d 4 = '-' ∧ (d 5).isDigit ∧ (d 6).isDigit ∧ d 7 = '-'
      ∧ (d 8).isDigit ∧ (d 9).isDigit ∧ d 10 = 'T'
      ∧ (d 11).isDigit ∧ (d 12).isDigit ∧ d 13 = ':'
      ∧ (d 14).isDigit ∧ (d 15).isDigit ∧ d 16 = ':'
      ∧ (d 17).isDigit ∧ (d 18).isDigit ∧ d 19 = '.'
      ∧ (d 20).isDigit ∧ (d 21).isDigit ∧ (d 22).isDigit ∧ d 23 = 'Z'
      ∧ 1 ≤ 10 * ((d 5).toNat - 48) + ((d 6).toNat - 48)
      ∧ 10 * ((d 5).toNat - 48) + ((d 6).toNat - 48) ≤ 12
      ∧ 1 ≤ 10 * ((d 8).toNat - 48) + ((d 9).toNat - 48)
      ∧ 10 * ((d 8).toNat - 48) + ((d 9).toNat - 48) ≤
          daysInMonth
            (1000 * ((d 0).toNat - 48) + 100 * ((d 1).toNat - 48)
              + 10 * ((d 2).toNat - 48) + ((d 3).toNat - 48))
            (10 * ((d 5).toNat - 48) + ((d 6).toNat - 48))
      ∧ 10 * ((d 11).toNat - 48) + ((d 12).toNat - 48) ≤ 23
      ∧ 10 * ((d 14).toNat - 48) + ((d 15).toNat - 48) ≤ 59
      ∧ 10 * ((d 17).toNat - 48) + ((d 18).toNat - 48) ≤ 59
  then some (String.mk (cs.take 10))
  else none

/-- The `updatedDate` computation (lines 150–152):
`item.version?.when ? new Date(item.version.when).toISOString().split('T')[0] : 'N/A'`.
An absent or empty (falsy) timestamp yields `"N/A"`; a present unparsable
one throws, modelled as `Except.error "Invalid time value"`. -/
def normalizeDate (w : Option String) : Except String String :=
  match w with
  | none => Except.ok "N/A"
  | some s =>
      if s = "" then Except.ok "N/A"
      else
        match jsDateToIsoDate s with
        | some d => Except.ok d
        | none => Except.error "Invalid time value"

/-- The raw `version?.when` field of an entry. -/
def rawWhen (item : RawResult) : Option String :=
  item.version.bind RawVersion.when

/-- The raw `version?.by?.displayName` field of an entry. -/
def rawDisplayName (item : RawResult) : Option String :=
  (item.version.bind RawVersion.by_).bind RawBy.displayName

/-- The mapper body (lines 142–153): one raw entry to one `SearchResult`.
Only the date conversion can throw, so it is sequenced first; every other
field is a total computation, and `_links` is never read. -/
def normalizeEntry (baseUrl : String) (item : RawResult) : Except String SearchResult :=
  match normalizeDate (rawWhen item) with
  | Except.error e => Except.error e
  | Except.ok date =>
      Except.ok
        { id := item.id
          title := jsOrString item.title "Untitled"
          space := jsOrString (item.space.bind RawSpace.name)
                     (jsOrString (item.space.bind RawSpace.key) "Unknown")
          spaceKey := jsOrString (item.space.bind RawSpace.key) ""
          url := stripTrailingSlash baseUrl ++ "/pages/viewpage.action?pageId=" ++ item.id
          updatedBy := jsOrString (rawDisplayName item) "Unknown"
          updatedDate := date }

/-- `data.results?.map(...) || []`: map the normalizer over the (possibly
absent) results array; a throw anywhere aborts the whole mapping. -/
def mapResults (baseUrl : String) (results : Option (List RawResult)) :
    Except String (List SearchResult) :=
  (results.getD []).mapM (normalizeEntry baseUrl)

/-- Outcome of one invocation after the HTTP response arrives. -/
inductive SearchOutcome where
  /-- `spinner.fail(label)` plus a printed detail line, then `process.exit(1)`. -/
  | failure (label : String) (detail : String)
  /-- The zero-result message, then a normal return (exit code 0). -/
  | noDocs (msg : String)
  /-- The rendered table rows (exit code 0). -/
  | table (rows : List SearchResult)
deriving DecidableEq

/-- The process exit code of an outcome. -/
def SearchOutcome.exitCode : SearchOutcome → Nat
  | failure _ _ => 1
  | noDocs _ => 0
  | table _ => 0

/-- Response handling from `search.ts` lines 101–160 plus the surrounding
`try`/`catch`: `response.ok` (status 200–299) gates the error branch;
401 and 404 get dedicated messages, every other non-2xx status the generic
`HTTP <status>: <statusText>` message; on a 2xx body the results are
normalized (a throw lands in the catch block as `"Search error"`), and an
empty list prints the no-documents message and returns normally. -/
def handleSearchResponse (baseUrl : String) (status : Nat) (statusText : String)
    (results : Option (List RawResult)) : SearchOutcome :=
  if ¬ (200 ≤ status ∧ status ≤ 299) then
    if status = 401 then
      SearchOutcome.failure "Authentication failed"
        "Invalid ATLASSIAN_API_TOKEN. Please check your token and username."
    else if status = 404 then
      SearchOutcome.failure "Not found"
        "Confluence API endpoint not found. Please verify CONFLUENCE_URL."
    else
      SearchOutcome.failure "Search failed"
        ("HTTP " ++ toString status ++ ": " ++ statusText)
  else
    match mapResults baseUrl results with
    | Except.error e => SearchOutcome.failure "Search error" e
    | Except.ok rs =>
        if rs.length = 0 then
          SearchOutcome.noDocs "No documents found matching your search.\nTry different keywords."
        else
          SearchOutcome.table rs

/-- A built search request: target URL plus query parameters, in the order
they are appended to `searchUrl.searchParams` (lines 84–87). -/
structure BuiltRequest where
  url : String
  params : List (String × String)
deriving DecidableEq

/-- Request construction (lines 84–87): the CQL clause embeds the phrase
verbatim, the limit is stringified, and the expand list is fixed. -/
def buildSearchRequest (baseUrl phrase : String) (limit : Int) : BuiltRequest :=
  { url := stripTrailingSlash baseUrl ++ "/rest/api/content/search"
    params :=
      [("cql", "type=page AND text~\"" ++ phrase ++ "\""),
       ("limit", toString limit),
       ("expand", "space,history,version")] }

/-- `const limit = options.limit || 10` (line 79): `undefined` and `NaN`
(both `none` here) and `0` are falsy and give the default 10; every other
value — negative values included — passes through unchanged. -/
def effectiveLimit (l : Option Int) : Int :=
  match l with
  | none => 10
  | some v => if v = 0 then 10 else v

/-- What happens between argument intake and the `fetch` call. -/
inductive PreOutcome where
  /-- Rejection before any HTTP request (the spec's `InvalidInput`);
  no code path in `searchConfluence` produces it. -/
  | invalidInput
  /-- The HTTP request that will be issued. -/
  | request (r : BuiltRequest)
deriving DecidableEq

/-- The pre-request phase of `searchConfluence` (lines 76–99): the phrase
is taken as-is — there is no emptiness or trimming validation — and the
request is always built and issued. -/
def prepareSearch (baseUrl phrase : String) (limit : Option Int) : PreOutcome :=
  PreOutcome.request (buildSearchRequest baseUrl phrase (effectiveLimit limit))

/-- A run of spaces, `' '.repeat(k)`. -/
def spaces (k : Nat) : String :=
  String.mk (List.replicate k ' ')

/-- Banner width (lines 163–167): the four column widths plus 3 for the
border characters: `60 + 8 + 18 + 12 + 3`. -/
def bannerWidth : Nat := titleWidth + 8 + 18 + 12 + 3

/-- The banner title text for `n` results (line 170). -/
def bannerTitleText (n : Nat) : String :=
  "Confluence Search Results (" ++ toString n ++ " found)"

/-- `centerPos - Math.floor(titleText.length / 2)` with
`centerPos = Math.floor(bannerWidth / 2)` (lines 172–173); `Int` because
the subtraction can go negative for very long titles. -/
def centerStart (n : Nat) : Int :=
  ((bannerWidth / 2 : Nat) : Int) - (((bannerTitleText n).length / 2 : Nat) : Int)

/-- `Math.max(1, centerStart - 1)` (line 174). -/
def spacesToCenter (n : Nat) : Int :=
  max 1 (centerStart n - 1)

/-- `Math.max(1, bannerWidth - spacesToCenter - titleText.length - currentTime.length - 2)`
(lines 175–178). -/
def spacesToRight (n : Nat) (time : String) : Int :=
  max 1 ((bannerWidth : Int) - spacesToCenter n - ((bannerTitleText n).length : Int)
          - (time.length : Int) - 2)

/-- The visible text of the banner content line (lines 180–186); the
`chalk.dim` around the time only adds zero-width SGR codes and is omitted
from the visible-layout model. -/
def styledLine (n : Nat) (time : String) : String :=
  " " ++ spaces (spacesToCenter n).toNat ++ bannerTitleText n
    ++ spaces (spacesToRight n time).toNat ++ time ++ " "

/-- Offset of the first character of the title text within the banner
content line: one leading space plus the centering run. -/
def titleOffset (n : Nat) : Nat :=
  1 + (spacesToCenter n).toNat

deriving instance DecidableEq for Except

/-- A raw entry whose `displayName` and `when` are present but empty
strings: JavaScript `||` treats them as falsy. -/
def emptyNameEntry : RawResult :=
  { id := "9", title := some "Doc", space := none,
    version := some { when := some "", by_ := some { displayName := some "" } },
    _links := none }

/-- A raw entry with every optional field present and non-empty. -/
def presentEntry : RawResult :=
  { id := "7", title := some "Hello",
    space := some { key := some "SP", name := some "Space" },
    version := some { when := some "2024-03-05T10:00:00.000Z",
                      by_ := some { displayName := some "Ann" } },
    _links := none }

/-- The normalized record of `presentEntry` under base URL
`https://w.example`. -/
def presentResult : SearchResult :=
  { id := "7", title := "Hello", space := "Space", spaceKey := "SP",
    url := "https://w.example/pages/viewpage.action?pageId=7",
    updatedBy := "Ann", updatedDate := "2024-03-05" }

/-- A raw entry carrying a malicious `_links.webui` value. -/
def webuiEntry : RawResult :=
  { id := "42", title := some "T", space := none, version := none,
    _links := some { webui := some "javascript:alert(1)" } }

/-- The normalized record of `webuiEntry` under base URL
`https://w.example/` (note the trailing slash). -/
def webuiResult : SearchResult :=
  { id := "42", title := "T", space := "Unknown", spaceKey := "",
    url := "https://w.example/pages/viewpage.action?pageId=42",
    updatedBy := "Unknown", updatedDate := "N/A" }

/-- A raw entry whose `version.when` is present but not a parsable
timestamp. -/
def unparsableDateEntry : RawResult :=
  { id := "1", title := some "T", space := none,
    version := some { when := some "not-a-date", by_ := none },
    _links := none }

/-- Length of a run of spaces. -/
theorem spaces_length (k : Nat) : (spaces k).length = k := by
  simp [spaces, String.length]

/-- `" "` has length one. -/
theorem one_space_length : (" " : String).length = 1 := rfl

/-- C10: a 200 response containing an entry whose `version.when` is present
but not a parsable timestamp does not yield an `"N/A"` date or a table: the
date conversion throws, the generic catch path reports "Search error", and
the process exits with code 1. -/
theorem unparsable_timestamp_aborts :
    handleSearchResponse "https://w.example" 200 "OK" (some [unparsableDateEntry]) =
      SearchOutcome.failure "Search error" "Invalid time value" ∧
    (handleSearchResponse "https://w.example" 200 "OK" (some [unparsableDateEntry])).exitCode = 1 ∧
    rawWhen unparsableDateEntry = some "not-a-date" ∧
    jsDateToIsoDate "not-a-date" = none := by
  decide

/-- C4 counterexample: an empty phrase is not rejected with `InvalidInput`;
`searchConfluence` builds the request and issues it, with the empty phrase
embedded in the CQL clause. -/
theorem empty_phrase_not_rejected :
    prepareSearch "https://w.example" "" none =
      PreOutcome.request (buildSearchRequest "https://w.example" "" 10) ∧
    prepareSearch "https://w.example" "" none ≠ PreOutcome.invalidInput ∧
    (buildSearchRequest "https://w.example" "" 10).params.lookup "cql" =
      some "type=page AND text~\"\"" := by
  decide

/-- C4 amended: no phrase validation exists: for every phrase — empty or
not — the pre-request phase always issues the HTTP request built from the
phrase as given, and never fails with `InvalidInput`. -/
theorem search_never_validates_phrase (baseUrl phrase : String) (limit : Option Int) :
    prepareSearch baseUrl phrase limit =
      PreOutcome.request (buildSearchRequest baseUrl phrase (effectiveLimit limit)) ∧
    prepareSearch baseUrl phrase limit ≠ PreOutcome.invalidInput := by
  exact ⟨rfl, by simp [prepareSearch]⟩

/-- C6 counterexample: a supplied limit of `-5` is not clamped or guarded:
the effective limit is `-5` (below 1) and is passed into the request's
`limit` parameter. -/
theorem limit_not_clamped :
    effectiveLimit (some (-5)) = -5 ∧
    ¬ 1 ≤ effectiveLimit (some (-5)) ∧
    (buildSearchRequest "https://w.example" "q"
        (effectiveLimit (some (-5)))).params.lookup "limit" = some "-5" := by
  decide

/-- C6 amended: `options.limit || 10` defaults only the falsy values: the
effective limit is 10 when the option is unset (or `NaN`) or equals 0;
every other supplied value — negative values included — passes through
unchanged, so the effective limit is not guaranteed to be ≥ 1. -/
theorem limit_defaulting (v : Int) :
    effectiveLimit none = 10 ∧
    effectiveLimit (some 0) = 10 ∧
    (v ≠ 0 → effectiveLimit (some v) = v) := by
  refine ⟨rfl, rfl, fun hv => ?_⟩
  simp [effectiveLimit, hv]

/-- C6 witness: the amended claim evaluated at the concrete limits `-5`
and unset. -/
theorem limit_defaulting_witness :
    effectiveLimit (some (-5)) = -5 ∧ effectiveLimit none = 10 :=
  ⟨(limit_defaulting (-5)).2.2 (by decide), (limit_defaulting 0).1⟩

/-- C8 counterexample: the OSC 8 sequences emitted by `hyperlink` are
terminated by BEL (`\x07`), not by the ESC-backslash string terminator the
claim states, so the rendered cell differs from the claimed form. -/
theorem hyperlink_terminator_counterexample :
    renderTitleCell "t" "u" ≠
      chalkCyan ("\x1b]8;;u\x1b\\" ++ "t" ++ "\x1b]8;;\x1b\\") ∧
    hyperlink "t" "u" ≠ "\x1b]8;;u\x1b\\t\x1b]8;;\x1b\\" ∧
    hyperlink "t" "u" = "\x1b]8;;u\x07t\x1b]8;;\x07" := by
  decide

/-- C8 amended: for every rendered row the (truncated) title is wrapped in
the OSC 8 hyperlink escape sequence with BEL terminators —
`ESC]8;;URL BEL` before the visible text and `ESC]8;;BEL` after it — so the
visible text is the truncated title and the link target is the result's
URL. -/
theorem hyperlink_bel_wrapping (t url : String) :
    hyperlink t url = "\x1b]8;;" ++ url ++ "\x07" ++ t ++ "\x1b]8;;\x07" ∧
    renderTitleCell t url =
      chalkCyan ("\x1b]8;;" ++ url ++ "\x07" ++ truncateTitle t ++ "\x1b]8;;\x07") :=
  ⟨rfl, rfl⟩

/-- C1: a 401 response reports the authentication failure and exits 1; a
404 reports the resource-not-found failure and exits 1; any other non-2xx
status reports `HTTP <status>: <statusText>` and exits 1; a 200 response
with an empty results array prints the no-documents message and exits 0. -/
theorem search_response_status_mapping (baseUrl : String) (status : Nat)
    (statusText : String) (results : Option (List RawResult)) :
    (status = 401 →
      handleSearchResponse baseUrl status statusText results =
        SearchOutcome.failure "Authentication failed"
          "Invalid ATLASSIAN_API_TOKEN. Please check your token and username." ∧
      (handleSearchResponse baseUrl status statusText results).exitCode = 1) ∧
    (status = 404 →
      handleSearchResponse baseUrl status statusText results =
        SearchOutcome.failure "Not found"
          "Confluence API endpoint not found. Please verify CONFLUENCE_URL." ∧
      (handleSearchResponse baseUrl status statusText results).exitCode = 1) ∧
    (¬ (200 ≤ status ∧ status ≤ 299) → status ≠ 401 → status ≠ 404 →
      handleSearchResponse baseUrl status statusText results =
        SearchOutcome.failure "Search failed"
          ("HTTP " ++ toString status ++ ": " ++ statusText) ∧
      (handleSearchResponse baseUrl status statusText results).exitCode = 1) ∧
    (status = 200 → results = some [] →
      handleSearchResponse baseUrl status statusText results =
        SearchOutcome.noDocs
          "No documents found matching your search.\nTry different keywords." ∧
      (handleSearchResponse baseUrl status statusText results).exitCode = 0) := by
  refine ⟨fun h => ?_, fun h => ?_, fun h h1 h4 => ?_, fun h hr => ?_⟩
  · subst h
    exact ⟨by simp [handleSearchResponse], by simp [handleSearchResponse, SearchOutcome.exitCode]⟩
  · subst h
    exact ⟨by simp [handleSearchResponse], by simp [handleSearchResponse, SearchOutcome.exitCode]⟩
  · constructor
    · simp [handleSearchResponse, h, h1, h4]
    · simp [handleSearchResponse, h, h1, h4, SearchOutcome.exitCode]
  · subst h; subst hr
    exact ⟨by simp [handleSearchResponse, mapResults, List.mapM, List.mapM.loop, pure, Except.pure],
           by simp [handleSearchResponse, mapResults, List.mapM, List.mapM.loop, pure, Except.pure,
                    SearchOutcome.exitCode]⟩

/-- C1 witness: the 401 branch and the empty-result 200 branch evaluated
at concrete responses. -/
theorem search_response_status_mapping_witness :
    handleSearchResponse "https://w.example" 401 "Unauthorized" none =
      SearchOutcome.failure "Authentication failed"
        "Invalid ATLASSIAN_API_TOKEN. Please check your token and username." ∧
    handleSearchResponse "https://w.example" 200 "OK" (some []) =
      SearchOutcome.noDocs
        "No documents found matching your search.\nTry different keywords." :=
  ⟨((search_response_status_mapping "https://w.example" 401 "Unauthorized" none).1 rfl).1,
   (((search_response_status_mapping "https://w.example" 200 "OK" (some [])).2.2.2) rfl rfl).1⟩

/-- C2: a title longer than `titleWidth - 4 = 56` characters renders as
exactly its first 53 characters followed by `"..."`; a title of at most 56
characters renders unchanged; truncation happens before the hyperlink
decoration is applied. -/
theorem title_truncation (t url : String) :
    (56 < t.length → truncateTitle t = String.mk (t.data.take 53) ++ "...") ∧
    (t.length ≤ 56 → truncateTitle t = t) ∧
    titleWidth - 4 = 56 ∧
    renderTitleCell t url =
      chalkCyan ("\x1b]8;;" ++ url ++ "\x07" ++ truncateTitle t ++ "\x1b]8;;\x07") := by
  refine ⟨fun h => ?_, fun h => ?_, rfl, rfl⟩
  · simp only [truncateTitle, titleWidth]
    norm_num
    omega
  · simp only [truncateTitle, titleWidth]
    norm_num
    omega

/-- C2 witness: a 60-character title is truncated to 53 characters plus
the ellipsis; a short title is unchanged. -/
theorem title_truncation_witness :
    truncateTitle "aaaaaaaaaaaaaaaaaaaaaaaaaaaaaaaaaaaaaaaaaaaaaaaaaaaaaaaaaaaa" =
      "aaaaaaaaaaaaaaaaaaaaaaaaaaaaaaaaaaaaaaaaaaaaaaaaaaaaa..." ∧
    truncateTitle "short" = "short" :=
  ⟨((title_truncation "aaaaaaaaaaaaaaaaaaaaaaaaaaaaaaaaaaaaaaaaaaaaaaaaaaaaaaaaaaaa" "u").1
      (by decide)).trans (by decide),
   (title_truncation "short" "u").2.1 (by decide)⟩

/-- C5: for every non-empty phrase and limit ≥ 1, the request targets
`{baseUrl}/rest/api/content/search` and its query parameters carry the
phrase verbatim inside `cql=type=page AND text~"<phrase>"`, the given limit,
and `expand=space,history,version`. -/
theorem request_construction (baseUrl phrase : String) (limit : Int)
    (_hp : phrase ≠ "") (_hl : 1 ≤ limit) :
    (buildSearchRequest baseUrl phrase limit).url =
      stripTrailingSlash baseUrl ++ "/rest/api/content/search" ∧
    (buildSearchRequest baseUrl phrase limit).params.lookup "cql" =
      some ("type=page AND text~\"" ++ phrase ++ "\"") ∧
    (buildSearchRequest baseUrl phrase limit).params.lookup "limit" =
      some (toString limit) ∧
    (buildSearchRequest baseUrl phrase limit).params.lookup "expand" =
      some "space,history,version" :=
  ⟨rfl, rfl, rfl, rfl⟩

/-- C5 witness: the request built for phrase `"alpha"` and limit 5. -/
theorem request_construction_witness :
    (buildSearchRequest "https://w.example" "alpha" 5).params.lookup "cql" =
      some "type=page AND text~\"alpha\"" ∧
    (buildSearchRequest "https://w.example" "alpha" 5).params.lookup "limit" = some "5" :=
  ⟨((request_construction "https://w.example" "alpha" 5 (by decide) (by decide)).2.1).trans
      (by decide),
   ((request_construction "https://w.example" "alpha" 5 (by decide) (by decide)).2.2.1).trans
      (by decide)⟩

/-- C3 counterexample: an entry whose `version.by.displayName` is present
but empty is normalized to `updatedBy = "Unknown"`, not to the raw (empty)
display name, and its present-but-empty `version.when` yields
`updatedDate = "N/A"` rather than a derived calendar date. -/
theorem normalization_empty_fields_counterexample :
    rawDisplayName emptyNameEntry = some "" ∧
    rawWhen emptyNameEntry = some "" ∧
    normalizeEntry "https://w.example" emptyNameEntry =
      Except.ok { id := "9", title := "Doc", space := "Unknown", spaceKey := "",
                  url := "https://w.example/pages/viewpage.action?pageId=9",
                  updatedBy := "Unknown", updatedDate := "N/A" } ∧
    ("Unknown" : String) ≠ "" := by
  decide

/-- C3 amended: for every raw entry that normalizes successfully: the title
is `"Untitled"` when the raw title is absent or empty and the raw title
otherwise; `updatedBy` is `"Unknown"` when `version.by.displayName` is
absent or empty and the display name otherwise; `updatedDate` is `"N/A"`
when `version.when` is absent or empty, and the ISO calendar date derived
from it when it is present and parsable (an unparsable timestamp aborts
normalization instead). -/
theorem normalization_field_defaults (baseUrl : String) (item : RawResult)
    (r : SearchResult) (h : normalizeEntry baseUrl item = Except.ok r) :
    ((item.title = none ∨ item.title = some "") → r.title = "Untitled") ∧
    (∀ t, item.title = some t → t ≠ "" → r.title = t) ∧
    ((rawDisplayName item = none ∨ rawDisplayName item = some "") →
      r.updatedBy = "Unknown") ∧
    (∀ dn, rawDisplayName item = some dn → dn ≠ "" → r.updatedBy = dn) ∧
    ((rawWhen item = none ∨ rawWhen item = some "") → r.updatedDate = "N/A") ∧
    (∀ w d, rawWhen item = some w → jsDateToIsoDate w = some d →
      r.updatedDate = d) := by
  unfold normalizeEntry at h
  cases hd : normalizeDate (rawWhen item) with
  | error e => rw [hd] at h; exact absurd h (by simp)
  | ok date =>
      rw [hd] at h
      injection h with h
      subst h
      refine ⟨?_, ?_, ?_, ?_, ?_, ?_⟩
      · rintro (ht | ht) <;> simp [ht, jsOrString]
      · intro t ht hne; simp [ht, jsOrString, hne]
      · rintro (hdn | hdn) <;> simp [hdn, jsOrString]
      · intro dn hdn hne; simp [hdn, jsOrString, hne]
      · rintro (hw | hw) <;> (rw [hw] at hd; simp [normalizeDate] at hd; exact hd.symm)
      · intro w d hw hjd
        rw [hw] at hd
        have hwne : w ≠ "" := by
          intro hemp
          subst hemp
          simp [jsDateToIsoDate] at hjd
        simp [normalizeDate, hwne, hjd] at hd
        exact hd.symm

/-- C3 witness: the amended defaults evaluated on an entry with every
field present and non-empty. -/
theorem normalization_field_defaults_witness :
    presentResult.title = "Hello" ∧
    presentResult.updatedBy = "Ann" ∧
    presentResult.updatedDate = "2024-03-05" := by
  have h := normalization_field_defaults "https://w.example" presentEntry presentResult
    (by decide)
  exact ⟨h.2.1 "Hello" rfl (by decide),
         h.2.2.2.1 "Ann" rfl (by decide),
         h.2.2.2.2.2 "2024-03-05T10:00:00.000Z" "2024-03-05" rfl (by decide)⟩

/-- C7: the normalized `url` is always built from the configured base URL
(with a trailing slash stripped) and the entry's `id`, and the untrusted
`_links` field of the raw entry has no influence on normalization. -/
theorem url_from_base_and_id (baseUrl : String) (item : RawResult)
    (r : SearchResult) (h : normalizeEntry baseUrl item = Except.ok r) :
    r.url = stripTrailingSlash baseUrl ++ "/pages/viewpage.action?pageId=" ++ item.id ∧
    ∀ w, normalizeEntry baseUrl { item with _links := w } = normalizeEntry baseUrl item := by
  constructor
  · unfold normalizeEntry at h
    cases hd : normalizeDate (rawWhen item) with
    | error e => rw [hd] at h; exact absurd h (by simp)
    | ok date =>
        rw [hd] at h
        injection h with h
        subst h
        rfl
  · intro w
    rfl

/-- C7 witness: an entry with a malicious `_links.webui` value still gets
the base-URL-plus-id link. -/
theorem url_from_base_and_id_witness :
    webuiResult.url = "https://w.example/pages/viewpage.action?pageId=42" :=
  ((url_from_base_and_id "https://w.example/" webuiEntry webuiResult (by decide)).1).trans
    (by decide)

/-- C9: for every result count (the banner title then fits the line) and
every current-time string of realistic length, the banner content line
places the title text at left offset
`floor(bannerWidth / 2) - floor(titleText.length / 2)`, where
`bannerWidth` is the sum of the four column widths plus 3 for the border
characters; both padding runs are at least one space, and the time is
right-aligned: the content line is exactly `bannerWidth` characters, ending
with the time and one trailing space. -/
theorem banner_centering (n : Nat) (time : String)
    (h1 : (bannerTitleText n).length ≤ 76) (h2 : time.length ≤ 11) :
    (titleOffset n : Int) =
      ((bannerWidth / 2 : Nat) : Int) - (((bannerTitleText n).length / 2 : Nat) : Int) ∧
    1 ≤ spacesToCenter n ∧
    1 ≤ spacesToRight n time ∧
    (styledLine n time).length = bannerWidth := by
  simp only [titleOffset, spacesToCenter, spacesToRight, centerStart, styledLine,
    String.length_append, spaces_length, one_space_length, bannerWidth, titleWidth]
  omega

/-- C9 witness: the banner line for 3 results at `10:00:00 AM`. -/
theorem banner_centering_witness :
    (titleOffset 3 : Int) =
      ((bannerWidth / 2 : Nat) : Int) - (((bannerTitleText 3).length / 2 : Nat) : Int) ∧
    (styledLine 3 "10:00:00 AM").length = bannerWidth :=
  ⟨(banner_centering 3 "10:00:00 AM" (by decide) (by decide)).1,
   (banner_centering 3 "10:00:00 AM" (by decide) (by decide)).2.2.2⟩
